import Mathlib

/-!
Shallow embedding of the token-lifecycle and speech-synthesis core of
src/tts/tts_salute.py (classes Token and function speak), together with
theorems settling the specification claims about it.

Modelling conventions:
* Class-level mutable state of Token (`_authdata`, `_token`, `_expires_in`)
  is threaded explicitly as a `TokenState` value.
* `os.environ.get ("SALUTESPEECH_API_KEY")` is a fixed `Option String`
  parameter `env` (the process environment does not change during a call);
  each call records how many environment reads it performed.
* `int (time.time () * 1000)` is an `Int` parameter `nowMs`.
* HTTP traffic is modelled by passing in the response the server would give
  (`TokenResponse`, `SynthResponse`) and recording the requests the code
  issues in the order it issues them.
* Python exceptions become an error type `PyError`; raising is modelled with
  `Except`.
* The wave-module decode step (`wave.open`, `getframerate`, `getnframes`,
  `readframes`) followed by `np.frombuffer (dtype=int16)` is modelled by
  `wavDecode` on a byte list (bytes as `Nat` values below 256), for the
  canonical mono 16-bit PCM RIFF/WAVE layout; `wavEncode` builds such a
  container and serves as the synthetic fixture encoder.
-/

set_option maxHeartbeats 1000000

deriving instance DecidableEq for Except

/-- Exceptions the program can raise: `ValueError` with a message (invalid
voice), bare `Exception` with a message (token / synthesis failure), and
`wave.Error` raised by `wave.open` on a malformed body. -/
inductive PyError where
  | valueError (msg : String)
  | exception (msg : String)
  | waveError
  deriving DecidableEq, Repr

/-- Class-level state of `Token`: `_authdata`, `_token`, `_expires_in`. -/
structure TokenState where
  authdata : Option String
  token : Option String
  expiresIn : Option Int
  deriving DecidableEq, Repr

/-- Python f-string rendering of an optional string: `None` prints as the
four-character string "None". -/
def pyStr : Option String → String
  | none => "None"
  | some s => s

/-- Outcome of `Token.get_authdata`: the updated class state, the returned
value, and the number of `os.environ.get` reads the call performed. -/
structure AuthdataOutcome where
  state : TokenState
  value : Option String
  envReads : Nat
  deriving DecidableEq, Repr

/-- Embedding of `Token.get_authdata`: if `cls._authdata is None`, read
`SALUTESPEECH_API_KEY` from the environment and store the result in
`cls._authdata`; return `cls._authdata`. -/
def get_authdata (env : Option String) (st : TokenState) : AuthdataOutcome :=
  match st.authdata with
  | some v => { state := st, value := some v, envReads := 0 }
  | none => { state := { st with authdata := env }, value := env, envReads := 1 }

/-- An HTTP POST request as the program issues it: target URL, headers in
order, and body. -/
structure HttpRequest where
  url : String
  headers : List (String × String)
  body : String
  deriving DecidableEq, Repr

/-- The fixed OAuth token-endpoint URL of `__request_for_new_token__`. -/
def oauthUrl : String := "https://ngw.devices.sberbank.ru:9443/api/v2/oauth"

/-- The request `__request_for_new_token__` issues: `Authorization: Basic`
followed by the f-string rendering of the auth data, a fresh `RqUID`
(`str (uuid.uuid4 ())`, passed in as `rqUid`), form content type, and the
urlencoded body `scope=SALUTE_SPEECH_PERS`. -/
def tokenRequest (auth : Option String) (rqUid : String) : HttpRequest :=
  { url := oauthUrl,
    headers := [("Authorization", "Basic " ++ pyStr auth),
                ("RqUID", rqUid),
                ("Content-Type", "application/x-www-form-urlencoded")],
    body := "scope=SALUTE_SPEECH_PERS" }

/-- What the token endpoint answers: HTTP status, and — read only on
status 200 — the `access_token` and `expires_at` fields of the JSON body. -/
structure TokenResponse where
  statusCode : Nat
  accessToken : String
  expiresAt : Int
  deriving DecidableEq, Repr

/-- Outcome of `Token.__request_for_new_token__`: updated class state, the
returned `(access_token, expires_at)` pair or the raised error, and the
requests issued. -/
structure RefreshOutcome where
  state : TokenState
  result : Except PyError (String × Int)
  requests : List HttpRequest
  deriving DecidableEq, Repr

/-- Embedding of `Token.__request_for_new_token__`: build the headers (which
calls `Token.get_authdata`), POST to the token endpoint, and on status 200
return `(access_token, expires_at)`; otherwise raise
`Exception ("Failed to obtain token")`. -/
def request_for_new_token (env : Option String) (rqUid : String)
    (resp : TokenResponse) (st : TokenState) : RefreshOutcome :=
  let a := get_authdata env st
  let req := tokenRequest a.value rqUid
  if resp.statusCode = 200 then
    { state := a.state, result := .ok (resp.accessToken, resp.expiresAt),
      requests := [req] }
  else
    { state := a.state, result := .error (.exception "Failed to obtain token"),
      requests := [req] }

/-- The refresh condition of `Token.get_token`:
`cls._token is None or (cls._expires_in is not None and
cls._expires_in < int (time.time () * 1000) - 2000)`. -/
def isRefreshNeeded (nowMs : Int) (st : TokenState) : Bool :=
  st.token.isNone ||
    (match st.expiresIn with
     | some e => decide (e < nowMs - 2000)
     | none => false)

/-- Outcome of `Token.get_token`: updated class state, the returned
`cls._token` (or the raised error), and the requests issued. -/
structure GetTokenOutcome where
  state : TokenState
  result : Except PyError (Option String)
  requests : List HttpRequest
  deriving DecidableEq, Repr

/-- Embedding of `Token.get_token`: if the refresh condition holds, call
`__request_for_new_token__` and assign `cls._token, cls._expires_in` from its
result (a raised error propagates before the assignment); finally return
`cls._token`. -/
def get_token (env : Option String) (rqUid : String) (nowMs : Int)
    (resp : TokenResponse) (st : TokenState) : GetTokenOutcome :=
  if isRefreshNeeded nowMs st then
    let r := request_for_new_token env rqUid resp st
    match r.result with
    | .ok (tok, exp) =>
        let st2 := { r.state with token := some tok, expiresIn := some exp }
        { state := st2, result := .ok st2.token, requests := r.requests }
    | .error e => { state := r.state, result := .error e, requests := r.requests }
  else
    { state := st, result := .ok st.token, requests := [] }

/-- The `valid_voices` dictionary of `speak`, in insertion order. -/
def valid_voices : List (String × String) :=
  [("Наталья", "Nec"), ("Александра", "Ost"), ("Борис", "Bys"),
   ("Марфа", "May"), ("Тарас", "Tur"), ("Сергей", "Pon")]

/-- The `ValueError` message `speak` raises for an unrecognized voice:
it interpolates the offending value and joins the valid keys with ", ". -/
def invalidVoiceMsg (voice : String) : String :=
  "Недопустимое значение для параметра \x27voice\x27: " ++ voice ++
    ". Допустимые значения: " ++
    String.intercalate ", " (valid_voices.map Prod.fst)

/-- Little-endian byte pair of a 16-bit value. -/
def le16 (v : Nat) : List Nat := [v % 256, v / 256 % 256]

/-- Little-endian byte quadruple of a 32-bit value. -/
def le32 (v : Nat) : List Nat :=
  [v % 256, v / 256 % 256, v / 65536 % 256, v / 16777216 % 256]

/-- The two little-endian bytes of a sample as a signed 16-bit integer
(two's complement). -/
def sampleBytes (i : Int) : List Nat := le16 (i % 65536).toNat

/-- Synthetic-fixture encoder: the canonical RIFF/WAVE container for mono
16-bit PCM at the given sample rate — the layout the Python `wave` module
writes and the synthesis endpoint returns. Fixed header fields
(chunk ids "RIFF", "WAVE", "fmt ", "data", fmt-chunk size 16, audio format 1,
one channel, block align 2, 16 bits per sample) appear as byte literals. -/
def wavEncode (rate : Nat) (samples : List Int) : List Nat :=
  [82, 73, 70, 70] ++ le32 (36 + 2 * samples.length) ++
  [87, 65, 86, 69, 102, 109, 116, 32, 16, 0, 0, 0, 1, 0, 1, 0] ++
  le32 rate ++ le32 (2 * rate) ++
  [2, 0, 16, 0, 100, 97, 116, 97] ++ le32 (2 * samples.length) ++
  (samples.map sampleBytes).flatten

/-- Interpretation of two little-endian bytes as a signed 16-bit integer,
as `np.frombuffer (dtype=np.int16)` does. -/
def decSample (b0 b1 : Nat) : Int :=
  let u : Int := (b0 : Int) + 256 * (b1 : Int)
  if u < 32768 then u else u - 65536

/-- Decode the given number of 16-bit frames from a byte list; `none` when
the data runs short. -/
def decSamples : Nat → List Nat → Option (List Int)
  | 0, _ => some []
  | n + 1, b0 :: b1 :: rest => (decSamples n rest).map (fun l => decSample b0 b1 :: l)
  | _ + 1, _ => none

/-- Embedding of the decode step of `speak` on a synthesis response body:
`wave.open` on the canonical mono 16-bit PCM layout, `getframerate` (bytes
24-27), `getnframes` (data-chunk size over block align), `readframes`, and
`np.frombuffer (dtype=np.int16)`. Any body not in that layout decodes to
`none` (modelling `wave.Error`). -/
def wavDecode (bs : List Nat) : Option (Nat × List Int) :=
  match bs with
  | 82 :: 73 :: 70 :: 70 :: _s0 :: _s1 :: _s2 :: _s3 ::
    87 :: 65 :: 86 :: 69 :: 102 :: 109 :: 116 :: 32 ::
    16 :: 0 :: 0 :: 0 :: 1 :: 0 :: 1 :: 0 ::
    r0 :: r1 :: r2 :: r3 :: _b0 :: _b1 :: _b2 :: _b3 ::
    2 :: 0 :: 16 :: 0 ::
    100 :: 97 :: 116 :: 97 :: d0 :: d1 :: d2 :: d3 :: rest =>
      let rate := r0 + 256 * r1 + 65536 * r2 + 16777216 * r3
      let dataSize := d0 + 256 * d1 + 65536 * d2 + 16777216 * d3
      (decSamples (dataSize / 2) rest).map (fun ss => (rate, ss))
  | _ => none

/-- What the synthesis endpoint answers: HTTP status and raw body bytes. -/
structure SynthResponse where
  statusCode : Nat
  body : List Nat
  deriving DecidableEq, Repr

/-- The synthesis URL `speak` builds for a provider voice code. -/
def synthUrl (code : String) : String :=
  "https://smartspeech.sber.ru/rest/v1/text:synthesize?voice=" ++ code ++ "_24000"

/-- The synthesis request `speak` issues: bearer token (f-string rendering of
`cls._token`), plain-text content type, and the raw text as body. -/
def synthRequest (token : Option String) (code : String) (text : String) :
    HttpRequest :=
  { url := synthUrl code,
    headers := [("Authorization", "Bearer " ++ pyStr token),
                ("Content-Type", "application/text")],
    body := text }

/-- Outcome of `speak`: updated Token class state, normal return or raised
error, requests issued in order, and the `sd.play` call (samples and sample
rate) when playback happened. -/
structure SpeakOutcome where
  state : TokenState
  result : Except PyError Unit
  requests : List HttpRequest
  played : Option (List Int × Nat)
  deriving DecidableEq, Repr

/-- Embedding of `speak (text, voice)` (default voice "Александра"): validate
the voice against `valid_voices`, obtain a token via `Token.get_token`, POST
the text to the synthesis endpoint with the voice code in the query target,
and on status 200 decode the WAV body and play it; on any other status raise
`Exception ("Failed to synthesize speech")`. -/
def speak (env : Option String) (rqUid : String) (nowMs : Int)
    (tokenResp : TokenResponse) (synthResp : SynthResponse)
    (st : TokenState) (text : String) (voice : String) : SpeakOutcome :=
  match valid_voices.lookup voice with
  | none =>
      { state := st, result := .error (.valueError (invalidVoiceMsg voice)),
        requests := [], played := none }
  | some code =>
      let g := get_token env rqUid nowMs tokenResp st
      match g.result with
      | .error e =>
          { state := g.state, result := .error e, requests := g.requests,
            played := none }
      | .ok tok =>
          let req := synthRequest tok code text
          if synthResp.statusCode = 200 then
            match wavDecode synthResp.body with
            | some (rate, samples) =>
                { state := g.state, result := .ok (),
                  requests := g.requests ++ [req],
                  played := some (samples, rate) }
            | none =>
                { state := g.state, result := .error .waveError,
                  requests := g.requests ++ [req], played := none }
          else
            { state := g.state,
              result := .error (.exception "Failed to synthesize speech"),
              requests := g.requests ++ [req], played := none }

/-! ## Helper lemmas -/

/-- A cached token with no recorded expiry is served as-is: the refresh
condition is false, so `get_token` issues no request and leaves the state
unchanged. -/
theorem get_token_cached_of_no_expiry (env : Option String) (rqUid : String)
    (nowMs : Int) (resp : TokenResponse) (st : TokenState) (t : String)
    (htok : st.token = some t) (hexp : st.expiresIn = none) :
    get_token env rqUid nowMs resp st =
      { state := st, result := .ok (some t), requests := [] } := by
  have h : isRefreshNeeded nowMs st = false := by
    simp [isRefreshNeeded, htok, hexp]
  simp [get_token, h, htok]

/-! ## Claim theorems -/

/-- Claim C1 (code bug): with a cached token whose expiry (9000) lies 1000 ms
in the past of the call time (nowMs = 10000) — hence within 2000 ms of now /
in the past — `get_token` returns the stale cached token and issues no
refresh request, because the source compares `expires < now - 2000` instead
of treating expiries up to `now + 2000` as stale. -/
theorem c1_expired_token_served_stale :
    get_token (some "key") "rq" 10000
      { statusCode := 200, accessToken := "fresh", expiresAt := 99999999 }
      { authdata := some "key", token := some "stale", expiresIn := some 9000 } =
      { state := { authdata := some "key", token := some "stale", expiresIn := some 9000 },
        result := .ok (some "stale"), requests := [] } := by decide

/-- Claim C7: a cached token whose expiry lies more than 2000 ms in the
future of the call time is returned unchanged, with no token-endpoint
request issued. -/
theorem c7_fresh_cached_token_returned (env : Option String) (rqUid : String)
    (nowMs e : Int) (resp : TokenResponse) (st : TokenState) (t : String)
    (htok : st.token = some t) (hexp : st.expiresIn = some e)
    (hfresh : nowMs + 2000 < e) :
    get_token env rqUid nowMs resp st =
      { state := st, result := .ok (some t), requests := [] } := by
  have h : isRefreshNeeded nowMs st = false := by
    simp [isRefreshNeeded, htok, hexp]
    omega
  simp [get_token, h, htok]

/-- Witness for C7 at a concrete input: nowMs = 0, expiry 3000. -/
theorem c7_witness :
    get_token (some "key") "rq" 0
      { statusCode := 200, accessToken := "fresh", expiresAt := 7 }
      { authdata := some "key", token := some "tok", expiresIn := some 3000 } =
      { state := { authdata := some "key", token := some "tok", expiresIn := some 3000 },
        result := .ok (some "tok"), requests := [] } :=
  c7_fresh_cached_token_returned (some "key") "rq" 0 3000
    { statusCode := 200, accessToken := "fresh", expiresAt := 7 }
    { authdata := some "key", token := some "tok", expiresIn := some 3000 }
    "tok" rfl rfl (by decide)

/-- Claim C10: a cached token whose recorded expiry is absent (`None`) is
returned by every `get_token` call with no freshness check and no refresh,
whatever the call time. -/
theorem c10_no_expiry_never_refreshes (env : Option String) (rqUid : String)
    (nowMs : Int) (resp : TokenResponse) (st : TokenState) (t : String)
    (htok : st.token = some t) (hexp : st.expiresIn = none) :
    get_token env rqUid nowMs resp st =
      { state := st, result := .ok (some t), requests := [] } :=
  get_token_cached_of_no_expiry env rqUid nowMs resp st t htok hexp

/-- Witness for C10 at a concrete input: an arbitrarily late call time. -/
theorem c10_witness :
    get_token none "rq" 999999999999
      { statusCode := 200, accessToken := "new", expiresAt := 0 }
      { authdata := none, token := some "tok", expiresIn := none } =
      { state := { authdata := none, token := some "tok", expiresIn := none },
        result := .ok (some "tok"), requests := [] } :=
  c10_no_expiry_never_refreshes none "rq" 999999999999
    { statusCode := 200, accessToken := "new", expiresAt := 0 }
    { authdata := none, token := some "tok", expiresIn := none } "tok" rfl rfl

/-- Counterexample to claim C5 as stated: the failure raised for a token
endpoint status of 401 is identical to the one raised for 500 — the fixed
message "Failed to obtain token" — so the error does not carry the HTTP
status. -/
theorem c5_counterexample :
    (get_token (some "key") "rq" 0 { statusCode := 401, accessToken := "", expiresAt := 0 }
        { authdata := some "key", token := none, expiresIn := none }).result =
      (get_token (some "key") "rq" 0 { statusCode := 500, accessToken := "", expiresAt := 0 }
        { authdata := some "key", token := none, expiresIn := none }).result ∧
    (get_token (some "key") "rq" 0 { statusCode := 401, accessToken := "", expiresAt := 0 }
        { authdata := some "key", token := none, expiresIn := none }).result =
      .error (.exception "Failed to obtain token") := by decide

/-- Claim C5 as amended: on any non-200 token-endpoint response a refreshing
`get_token` fails with the generic exception "Failed to obtain token" (which
does not carry the HTTP status), and the cached token and expiry are left
unchanged. -/
theorem c5_non200_generic_failure_cache_unchanged (env : Option String)
    (rqUid : String) (nowMs : Int) (resp : TokenResponse) (st : TokenState)
    (hs : resp.statusCode ≠ 200) (hr : isRefreshNeeded nowMs st = true) :
    (get_token env rqUid nowMs resp st).result =
      .error (.exception "Failed to obtain token") ∧
    (get_token env rqUid nowMs resp st).state.token = st.token ∧
    (get_token env rqUid nowMs resp st).state.expiresIn = st.expiresIn := by
  cases ha : st.authdata <;>
    simp [get_token, hr, request_for_new_token, get_authdata, ha, hs]

/-- Witness for C5 (amended) at a concrete input: status 401 with an empty
cache. -/
theorem c5_witness :
    (get_token none "rq" 0 { statusCode := 401, accessToken := "", expiresAt := 0 }
        { authdata := none, token := none, expiresIn := none }).result =
      .error (.exception "Failed to obtain token") ∧
    (get_token none "rq" 0 { statusCode := 401, accessToken := "", expiresAt := 0 }
        { authdata := none, token := none, expiresIn := none }).state.token = none ∧
    (get_token none "rq" 0 { statusCode := 401, accessToken := "", expiresAt := 0 }
        { authdata := none, token := none, expiresIn := none }).state.expiresIn = none :=
  c5_non200_generic_failure_cache_unchanged none "rq" 0
    { statusCode := 401, accessToken := "", expiresAt := 0 }
    { authdata := none, token := none, expiresIn := none } (by decide) (by decide)

/-- Counterexample to claim C9 as stated: with the environment variable
absent, a first `get_authdata` call reads the environment, and the next call
reads it again (one read, not zero) — the `None` result is not cached, so the
environment is not read exactly once per process. -/
theorem c9_counterexample :
    (get_authdata none { authdata := none, token := none, expiresIn := none }).envReads = 1 ∧
    (get_authdata none
        (get_authdata none
          { authdata := none, token := none, expiresIn := none }).state).envReads = 1 := by
  decide

/-- Claim C9 as amended: `get_authdata` reads the environment lazily; when
the variable is present the first call reads it once, caches it, and a
subsequent call returns the cached value with no environment read; when the
variable is absent the call reads the environment, stores `None` (leaving
the cache empty), so every later call consults the environment again. -/
theorem c9_env_read_caching (v : String) (st : TokenState)
    (h : st.authdata = none) :
    (get_authdata (some v) st).envReads = 1 ∧
    (get_authdata (some v) st).value = some v ∧
    (get_authdata (some v) (get_authdata (some v) st).state).envReads = 0 ∧
    (get_authdata (some v) (get_authdata (some v) st).state).value = some v ∧
    (get_authdata none st).envReads = 1 ∧
    (get_authdata none st).state.authdata = none := by
  simp [get_authdata, h]

/-- Witness for C9 (amended) at a concrete input. -/
theorem c9_witness :
    (get_authdata (some "key") { authdata := none, token := none, expiresIn := none }).envReads = 1 ∧
    (get_authdata (some "key") { authdata := none, token := none, expiresIn := none }).value = some "key" ∧
    (get_authdata (some "key")
        (get_authdata (some "key")
          { authdata := none, token := none, expiresIn := none }).state).envReads = 0 ∧
    (get_authdata (some "key")
        (get_authdata (some "key")
          { authdata := none, token := none, expiresIn := none }).state).value = some "key" ∧
    (get_authdata none { authdata := none, token := none, expiresIn := none }).envReads = 1 ∧
    (get_authdata none
        { authdata := none, token := none, expiresIn := none }).state.authdata = none :=
  c9_env_read_caching "key" { authdata := none, token := none, expiresIn := none } rfl

/-- Counterexample to claim C2 as stated: with `SALUTESPEECH_API_KEY` absent
and an empty cache, an attempted refresh does issue the token-endpoint
request — with the placeholder credential "Basic None" in the Authorization
header — and fails (on the endpoint's 401) only with the generic exception,
not with a distinct missing-credential error. -/
theorem c2_counterexample :
    (request_for_new_token none "rq"
        { statusCode := 401, accessToken := "", expiresAt := 0 }
        { authdata := none, token := none, expiresIn := none }).requests =
      [tokenRequest none "rq"] ∧
    (tokenRequest none "rq").headers.lookup "Authorization" = some "Basic None" ∧
    (request_for_new_token none "rq"
        { statusCode := 401, accessToken := "", expiresAt := 0 }
        { authdata := none, token := none, expiresIn := none }).result =
      .error (.exception "Failed to obtain token") := by decide

/-- Claim C2 as amended: when a refresh is attempted with the environment
variable absent (and no credential cached), the token-endpoint request is
issued anyway, carrying the placeholder credential "Basic None"; no distinct
missing-credential error exists — the failure surfaces only as the generic
"Failed to obtain token" exception when the endpoint answers non-200. -/
theorem c2_missing_key_sends_placeholder (rqUid : String) (resp : TokenResponse)
    (st : TokenState) (ha : st.authdata = none) (hs : resp.statusCode ≠ 200) :
    (request_for_new_token none rqUid resp st).requests = [tokenRequest none rqUid] ∧
    (tokenRequest none rqUid).headers =
      [("Authorization", "Basic None"), ("RqUID", rqUid),
       ("Content-Type", "application/x-www-form-urlencoded")] ∧
    (request_for_new_token none rqUid resp st).result =
      .error (.exception "Failed to obtain token") := by
  refine ⟨?_, rfl, ?_⟩ <;> simp [request_for_new_token, get_authdata, ha, hs]

/-- Witness for C2 (amended) at a concrete input: empty cache, status 401. -/
theorem c2_witness :
    (request_for_new_token none "uid"
        { statusCode := 401, accessToken := "", expiresAt := 0 }
        { authdata := none, token := none, expiresIn := none }).requests =
      [tokenRequest none "uid"] ∧
    (tokenRequest none "uid").headers =
      [("Authorization", "Basic None"), ("RqUID", "uid"),
       ("Content-Type", "application/x-www-form-urlencoded")] ∧
    (request_for_new_token none "uid"
        { statusCode := 401, accessToken := "", expiresAt := 0 }
        { authdata := none, token := none, expiresIn := none }).result =
      .error (.exception "Failed to obtain token") :=
  c2_missing_key_sends_placeholder "uid"
    { statusCode := 401, accessToken := "", expiresAt := 0 }
    { authdata := none, token := none, expiresIn := none } rfl (by decide)

/-- Claim C3: for a voice outside the fixed table, `speak` raises a
`ValueError` whose message interpolates the offending value and lists the
six valid names, leaves the state untouched, issues no request at all, and
plays nothing. -/
theorem c3_invalid_voice_rejected (env : Option String) (rqUid : String)
    (nowMs : Int) (tokenResp : TokenResponse) (synthResp : SynthResponse)
    (st : TokenState) (text voice : String)
    (h : valid_voices.lookup voice = none) :
    speak env rqUid nowMs tokenResp synthResp st text voice =
      { state := st, result := .error (.valueError (invalidVoiceMsg voice)),
        requests := [], played := none } ∧
    invalidVoiceMsg voice =
      "Недопустимое значение для параметра \x27voice\x27: " ++ voice ++
        ". Допустимые значения: " ++
        "Наталья, Александра, Борис, Марфа, Тарас, Сергей" := by
  constructor
  · simp [speak, h]
  · exact congrArg
      (fun j => "Недопустимое значение для параметра \x27voice\x27: " ++ voice ++
        ". Допустимые значения: " ++ j) (by rfl)

/-- Witness for C3 at a concrete input: the unknown voice "Иван". -/
theorem c3_witness :
    speak (some "k") "rq" 0 { statusCode := 200, accessToken := "t", expiresAt := 0 }
        { statusCode := 200, body := [] }
        { authdata := some "k", token := some "tok", expiresIn := none }
        "Привет" "Иван" =
      { state := { authdata := some "k", token := some "tok", expiresIn := none },
        result := .error (.valueError (invalidVoiceMsg "Иван")),
        requests := [], played := none } ∧
    invalidVoiceMsg "Иван" =
      "Недопустимое значение для параметра \x27voice\x27: " ++ "Иван" ++
        ". Допустимые значения: " ++
        "Наталья, Александра, Борис, Марфа, Тарас, Сергей" :=
  c3_invalid_voice_rejected (some "k") "rq" 0
    { statusCode := 200, accessToken := "t", expiresAt := 0 }
    { statusCode := 200, body := [] }
    { authdata := some "k", token := some "tok", expiresIn := none }
    "Привет" "Иван" (by decide)

/-- Counterexample to claim C6 as stated: the failure `speak` raises for a
synthesis-endpoint status of 500 is identical to the one raised for 404 —
the fixed message "Failed to synthesize speech" — so the error does not
carry the HTTP status (no playback is attempted, as claimed). -/
theorem c6_counterexample :
    (speak (some "k") "rq" 0 { statusCode := 200, accessToken := "t", expiresAt := 0 }
        { statusCode := 500, body := [] }
        { authdata := some "k", token := some "tok", expiresIn := none }
        "Привет" "Борис").result =
      (speak (some "k") "rq" 0 { statusCode := 200, accessToken := "t", expiresAt := 0 }
        { statusCode := 404, body := [] }
        { authdata := some "k", token := some "tok", expiresIn := none }
        "Привет" "Борис").result ∧
    (speak (some "k") "rq" 0 { statusCode := 200, accessToken := "t", expiresAt := 0 }
        { statusCode := 500, body := [] }
        { authdata := some "k", token := some "tok", expiresIn := none }
        "Привет" "Борис").result =
      .error (.exception "Failed to synthesize speech") ∧
    (speak (some "k") "rq" 0 { statusCode := 200, accessToken := "t", expiresAt := 0 }
        { statusCode := 500, body := [] }
        { authdata := some "k", token := some "tok", expiresIn := none }
        "Привет" "Борис").played = none := by decide

/-- Claim C6 as amended: on any non-200 synthesis-endpoint response `speak`
fails with the generic exception "Failed to synthesize speech" (which does
not carry the HTTP status) and attempts no audio playback. -/
theorem c6_synth_non200_no_playback (env : Option String) (rqUid : String)
    (nowMs : Int) (tokenResp : TokenResponse) (synthResp : SynthResponse)
    (st : TokenState) (text voice code t : String)
    (hv : valid_voices.lookup voice = some code)
    (htok : st.token = some t) (hexp : st.expiresIn = none)
    (hs : synthResp.statusCode ≠ 200) :
    (speak env rqUid nowMs tokenResp synthResp st text voice).result =
      .error (.exception "Failed to synthesize speech") ∧
    (speak env rqUid nowMs tokenResp synthResp st text voice).played = none := by
  have hg := get_token_cached_of_no_expiry env rqUid nowMs tokenResp st t htok hexp
  simp [speak, hv, hg, hs]

/-- Witness for C6 (amended) at a concrete input: status 500, voice
"Борис". -/
theorem c6_witness :
    (speak (some "k") "rq" 0 { statusCode := 200, accessToken := "t", expiresAt := 0 }
        { statusCode := 500, body := [] }
        { authdata := some "k", token := some "tok", expiresIn := none }
        "Привет" "Борис").result =
      .error (.exception "Failed to synthesize speech") ∧
    (speak (some "k") "rq" 0 { statusCode := 200, accessToken := "t", expiresAt := 0 }
        { statusCode := 500, body := [] }
        { authdata := some "k", token := some "tok", expiresIn := none }
        "Привет" "Борис").played = none :=
  c6_synth_non200_no_playback (some "k") "rq" 0
    { statusCode := 200, accessToken := "t", expiresAt := 0 }
    { statusCode := 500, body := [] }
    { authdata := some "k", token := some "tok", expiresIn := none }
    "Привет" "Борис" "Bys" "tok" (by decide) rfl rfl (by decide)

/-- With a fresh cached token, `speak` on a recognized voice issues exactly
the one synthesis request, whatever the synthesis endpoint answers. -/
theorem speak_requests_cached (env : Option String) (rqUid : String)
    (nowMs : Int) (tokenResp : TokenResponse) (synthResp : SynthResponse)
    (st : TokenState) (text voice code t : String)
    (hv : valid_voices.lookup voice = some code)
    (htok : st.token = some t) (hexp : st.expiresIn = none) :
    (speak env rqUid nowMs tokenResp synthResp st text voice).requests =
      [synthRequest (some t) code text] := by
  have hg := get_token_cached_of_no_expiry env rqUid nowMs tokenResp st t htok hexp
  simp only [speak, hv, hg]
  by_cases h2 : synthResp.statusCode = 200
  · simp only [h2, if_true, reduceIte]
    cases hd : wavDecode synthResp.body with
    | none => simp
    | some p => cases p with | mk rate samples => simp
  · simp [h2]

/-- Claim C4: the voice table is exactly the six documented pairs, and for
each recognized voice `speak` issues the synthesis request whose query
target ends with `voice=<code>_24000` built from the mapped provider code
with no other transformation. -/
theorem c4_voice_code_mapping (env : Option String) (rqUid : String)
    (nowMs : Int) (tokenResp : TokenResponse) (synthResp : SynthResponse)
    (st : TokenState) (text voice code t : String)
    (hv : (voice, code) ∈ valid_voices)
    (htok : st.token = some t) (hexp : st.expiresIn = none) :
    valid_voices = [("Наталья", "Nec"), ("Александра", "Ost"), ("Борис", "Bys"),
      ("Марфа", "May"), ("Тарас", "Tur"), ("Сергей", "Pon")] ∧
    (speak env rqUid nowMs tokenResp synthResp st text voice).requests =
      [synthRequest (some t) code text] ∧
    (synthRequest (some t) code text).url =
      "https://smartspeech.sber.ru/rest/v1/text:synthesize?voice=" ++ code ++ "_24000" := by
  have hl : valid_voices.lookup voice = some code := by
    fin_cases hv <;> rfl
  exact ⟨rfl,
    speak_requests_cached env rqUid nowMs tokenResp synthResp st text voice code t
      hl htok hexp, rfl⟩

/-- Witness for C4 at a concrete input: voice "Борис", code "Bys". -/
theorem c4_witness :
    valid_voices = [("Наталья", "Nec"), ("Александра", "Ost"), ("Борис", "Bys"),
      ("Марфа", "May"), ("Тарас", "Tur"), ("Сергей", "Pon")] ∧
    (speak (some "k") "rq" 0 { statusCode := 200, accessToken := "t", expiresAt := 0 }
        { statusCode := 500, body := [] }
        { authdata := some "k", token := some "tok", expiresIn := none }
        "Привет" "Борис").requests =
      [synthRequest (some "tok") "Bys" "Привет"] ∧
    (synthRequest (some "tok") "Bys" "Привет").url =
      "https://smartspeech.sber.ru/rest/v1/text:synthesize?voice=" ++ "Bys" ++ "_24000" :=
  c4_voice_code_mapping (some "k") "rq" 0
    { statusCode := 200, accessToken := "t", expiresAt := 0 }
    { statusCode := 500, body := [] }
    { authdata := some "k", token := some "tok", expiresIn := none }
    "Привет" "Борис" "Bys" "tok" (by decide) rfl rfl

/-- Reassembling the four little-endian bytes of a 32-bit value recovers
the value. -/
theorem de32_bytes (v : Nat) (h : v < 4294967296) :
    v % 256 + 256 * (v / 256 % 256) + 65536 * (v / 65536 % 256) +
      16777216 * (v / 16777216 % 256) = v := by omega

/-- Decoding the two little-endian bytes of an in-range sample as a signed
16-bit integer recovers the sample. -/
theorem decSample_sampleBytes (a : Int) (h1 : -32768 ≤ a) (h2 : a < 32768) :
    decSample ((a % 65536).toNat % 256) ((a % 65536).toNat / 256 % 256) = a := by
  simp only [decSample]
  split <;> omega

/-- Decoding `n` frames from the concatenated sample bytes of an in-range
sample list of length `n` recovers the list. -/
theorem decSamples_flatten (samples : List Int)
    (hs : ∀ i ∈ samples, -32768 ≤ i ∧ i < 32768) :
    decSamples samples.length ((samples.map sampleBytes).flatten) = some samples := by
  induction samples with
  | nil => rfl
  | cons a l ih =>
      obtain ⟨h1, h2⟩ := hs a (List.mem_cons_self a l)
      have ihh := ih (fun i hi => hs i (List.mem_cons_of_mem a hi))
      simp only [List.map_cons, List.flatten_cons, List.length_cons, sampleBytes, le16,
        List.cons_append, List.nil_append]
      simp only [decSamples, ihh, Option.map_some]
      rw [decSample_sampleBytes a h1 h2]
      rfl

/-- Round trip: decoding an encoded canonical mono 16-bit PCM WAV container
recovers the sample rate and the sample list bit-for-bit. -/
theorem wavDecode_wavEncode (rate : Nat) (samples : List Int)
    (hrate : rate < 4294967296) (hlen : samples.length < 2147483648)
    (hs : ∀ i ∈ samples, -32768 ≤ i ∧ i < 32768) :
    wavDecode (wavEncode rate samples) = some (rate, samples) := by
  simp only [wavEncode, le32, List.cons_append, List.nil_append]
  simp only [wavDecode]
  rw [de32_bytes rate hrate, de32_bytes (2 * samples.length) (by omega)]
  have h2 : 2 * samples.length / 2 = samples.length := by omega
  rw [h2, decSamples_flatten samples hs]
  rfl

/-- Claim C8: encoding a sample array into the canonical 16-bit PCM WAV
container and decoding it through the decode step reproduces the sample
array bit-for-bit, and `speak` on a 200 synthesis response carrying that
body invokes playback with exactly those samples at the extracted sample
rate. -/
theorem c8_wav_roundtrip_playback (rate : Nat) (samples : List Int)
    (hrate : rate < 4294967296) (hlen : samples.length < 2147483648)
    (hs : ∀ i ∈ samples, -32768 ≤ i ∧ i < 32768)
    (env : Option String) (rqUid : String) (nowMs : Int)
    (tokenResp : TokenResponse) (st : TokenState) (text voice code t : String)
    (hv : valid_voices.lookup voice = some code)
    (htok : st.token = some t) (hexp : st.expiresIn = none) :
    wavDecode (wavEncode rate samples) = some (rate, samples) ∧
    speak env rqUid nowMs tokenResp
        { statusCode := 200, body := wavEncode rate samples } st text voice =
      { state := st, result := .ok (),
        requests := [synthRequest (some t) code text],
        played := some (samples, rate) } := by
  have hdec := wavDecode_wavEncode rate samples hrate hlen hs
  have hg := get_token_cached_of_no_expiry env rqUid nowMs tokenResp st t htok hexp
  refine ⟨hdec, ?_⟩
  simp [speak, hv, hg, hdec]

/-- Witness for C8 at a concrete input: 24000 Hz, five samples covering
zero, both signs and both 16-bit extremes, voice "Борис". -/
theorem c8_witness :
    wavDecode (wavEncode 24000 [0, 1, -1, 32767, -32768]) =
      some (24000, [0, 1, -1, 32767, -32768]) ∧
    speak (some "k") "rq" 0 { statusCode := 200, accessToken := "t", expiresAt := 0 }
        { statusCode := 200, body := wavEncode 24000 [0, 1, -1, 32767, -32768] }
        { authdata := some "k", token := some "tok", expiresIn := none }
        "Привет" "Борис" =
      { state := { authdata := some "k", token := some "tok", expiresIn := none },
        result := .ok (),
        requests := [synthRequest (some "tok") "Bys" "Привет"],
        played := some ([0, 1, -1, 32767, -32768], 24000) } :=
  c8_wav_roundtrip_playback 24000 [0, 1, -1, 32767, -32768]
    (by decide) (by decide) (by decide)
    (some "k") "rq" 0 { statusCode := 200, accessToken := "t", expiresAt := 0 }
    { authdata := some "k", token := some "tok", expiresIn := none }
    "Привет" "Борис" "Bys" "tok" (by decide) rfl rfl
